import Mathlib

/-
Verification of `utils/plot_benchmark.py` (benchmark report renderer).

The script is embedded shallowly:
  * a pandas dataframe becomes `DataFrame` (a header of column names plus
    rows of cells); a cell is a `Value`: a finite number (`num`), a raw
    string (`str`, the form a cell takes when pandas leaves the column as
    `object` dtype because some entry is not numeric), or missing (`na`,
    pandas NaN);
  * `pd.to_numeric(errors := coerce)` becomes `to_numeric`, backed by a
    decimal/exponent literal parser `parseDec` modelling the accepted
    numeric literals;
  * Python `int(...)` becomes `pyInt` (truncation toward zero on numbers,
    `pyParseInt` on strings, `ValueError` on NaN and unparseable strings);
  * fallible steps return `Except PyErr`, and the whole program maps a
    directory content `Dir` to an `Outcome`: the diagnostic
    missing-summary exit, an uncaught Python exception, or a rendered
    figure (`Figure` keeps every piece of derived content: labels, best
    indices, bar values, palettes, annotation strings, captions, output
    path).  `Series.idxmin`/`idxmax` on an all-NA or empty column is
    modelled as raising `ValueError` (pandas >= 2.0 behaviour).
Rendering proper (pixel output) is abstracted away; only the content
that determines the image is kept.
-/

/-- A dataframe cell: a finite number, a raw (non-numeric-column) string,
or a missing value (NaN). -/
inductive Value where
  | num (q : ℚ)
  | str (s : String)
  | na
deriving DecidableEq, Repr

deriving instance DecidableEq for Except

/-- Python exceptions the script can raise. -/
inductive PyErr where
  | keyError (key : String)
  | valueError (msg : String)
deriving DecidableEq, Repr

def isNum : Value → Bool
  | .num _ => true
  | _ => false

def isStr : Value → Bool
  | .str _ => true
  | _ => false

/-- `pd.notna`: only NaN counts as missing. -/
def notna : Value → Bool
  | .na => false
  | _ => true

/-- Python `v == 0` as used in `row["Worker Count"] == 0`: true only for the
number zero (a string never equals an int, and NaN compares false). -/
def eqZero : Value → Bool
  | .num q => decide (q = 0)
  | _ => false

/-- Trim ASCII/unicode whitespace from both ends of a character list,
modelling Python `str.strip()`. -/
def trimChars (cs : List Char) : List Char :=
  ((cs.dropWhile Char.isWhitespace).reverse.dropWhile Char.isWhitespace).reverse

/-- Python `str.strip()`. -/
def pyStrip (s : String) : String := ⟨trimChars s.data⟩

/-- Boolean prefix test on character lists. -/
def isPrefixList : List Char → List Char → Bool
  | [], _ => true
  | _ :: _, [] => false
  | c :: cs, d :: ds => decide (c = d) && isPrefixList cs ds

/-- Python `line.startswith(pre)`. -/
def pyStartsWith (line pre : String) : Bool := isPrefixList pre.data line.data

/-- Sign handling shared by the numeric literal parsers. -/
def splitSign : List Char → Bool × List Char
  | '-' :: cs => (true, cs)
  | '+' :: cs => (false, cs)
  | cs => (false, cs)

/-- Value of a list of decimal digits. -/
def decValue (cs : List Char) : Nat :=
  cs.foldl (fun a c => 10 * a + (c.toNat - 48)) 0

/-- Optional exponent part of a float literal. -/
def parseExp (m : ℚ) : List Char → Option ℚ
  | [] => some m
  | c :: r =>
    if c = 'e' ∨ c = 'E' then
      let p := splitSign r
      let ds := p.2.takeWhile Char.isDigit
      let rest := p.2.dropWhile Char.isDigit
      if ds.isEmpty ∨ ¬ rest.isEmpty then none
      else some (if p.1 then m / 10 ^ decValue ds else m * 10 ^ decValue ds)
    else none

/-- Numeric literals accepted by `pd.to_numeric`: optional sign, decimal
digits with an optional fraction part, optional exponent, surrounding
whitespace ignored.  Anything else is unparseable. -/
def parseDec (s : String) : Option ℚ :=
  let cs := trimChars s.data
  let p := splitSign cs
  let ip := p.2.takeWhile Char.isDigit
  let rest1 := p.2.dropWhile Char.isDigit
  let signed : ℚ → ℚ := fun q => if p.1 then -q else q
  match rest1 with
  | '.' :: r =>
    let fp := r.takeWhile Char.isDigit
    let rest2 := r.dropWhile Char.isDigit
    if ip.isEmpty ∧ fp.isEmpty then none
    else (parseExp ((decValue ip : ℚ) + (decValue fp : ℚ) / 10 ^ fp.length) rest2).map signed
  | _ =>
    if ip.isEmpty then none
    else (parseExp (decValue ip : ℚ) rest1).map signed

/-- `pd.to_numeric(value, errors := coerce)` on one cell: numbers pass
through, strings parse or degrade to NaN, NaN stays NaN. -/
def to_numeric : Value → Value
  | .num q => .num q
  | .str s => match parseDec s with
    | some q => .num q
    | none => .na
  | .na => .na

/-- Integer literals accepted by Python `int(str)`: optional sign and
decimal digits, surrounding whitespace ignored. -/
def pyParseInt (s : String) : Option Int :=
  let cs := trimChars s.data
  let p := splitSign cs
  if (¬ p.2.isEmpty) ∧ p.2.all Char.isDigit then
    some ((if p.1 then -1 else 1) * (decValue p.2 : Int))
  else none

/-- Truncation toward zero of a rational, Python `int(float)`. -/
def ratTrunc (q : ℚ) : Int :=
  if q.num < 0 then -(Int.fdiv (-q.num) q.den) else Int.fdiv q.num q.den

/-- Python `int(...)` applied to a cell value. -/
def pyInt : Value → Except PyErr Int
  | .num q => .ok (ratTrunc q)
  | .str s => match pyParseInt s with
    | some n => .ok n
    | none => .error (.valueError ("invalid literal for int() with base 10: " ++ s))
  | .na => .error (.valueError "cannot convert float NaN to integer")

/-- A loaded csv: header of column names and rows of cells.  Rows shorter
than the header read as NaN, matching pandas padding. -/
structure DataFrame where
  header : List String
  rows : List (List Value)
deriving DecidableEq, Repr

/-- Position of a column name in the header (first occurrence). -/
def colIdx (c : String) : List String → Option Nat
  | [] => none
  | h :: t => if h = c then some 0 else (colIdx c t).map (· + 1)

/-- Cell of a row at a column position; absent cells are NaN. -/
def cellAt (r : List Value) (i : Nat) : Value := r.getD i .na

/-- Cell of a row under a column name (NaN when the column is absent;
only used where presence is separately known). -/
def cellOf (hdr : List String) (r : List Value) (c : String) : Value :=
  match colIdx c hdr with
  | some i => cellAt r i
  | none => .na

/-- `row[c]` inside `df.apply`: `KeyError` when the column is absent. -/
def rowGet (hdr : List String) (r : List Value) (c : String) : Except PyErr Value :=
  match colIdx c hdr with
  | some i => .ok (cellAt r i)
  | none => .error (.keyError c)

/-- `df[c]` as a read: the column as a list, or `KeyError`. -/
def DataFrame.getCol (df : DataFrame) (c : String) : Except PyErr (List Value) :=
  match colIdx c df.header with
  | some i => .ok (df.rows.map fun r => cellAt r i)
  | none => .error (.keyError c)

/-- `df[c] = vs` as a write: replaces the column in place, or appends a
new column at the end when the name is fresh. -/
def DataFrame.setCol (df : DataFrame) (c : String) (vs : List Value) : DataFrame :=
  match colIdx c df.header with
  | some i => ⟨df.header, List.zipWith (fun r v => r.set i v) df.rows vs⟩
  | none => ⟨df.header ++ [c], List.zipWith (fun r v => r ++ [v]) df.rows vs⟩

/-- The five columns the script coerces to numeric (`Worker Count` is
deliberately not among them; the source comment notes `Max Disk Write`
was removed). -/
def numeric_cols : List String :=
  ["Actual Workers", "Max Memory (MB)", "Avg CPU (%)", "Max Disk Read (kB/s)", "Total Time (s)"]

/-- The four plotted metric columns. -/
def metric_cols : List String :=
  ["Max Memory (MB)", "Avg CPU (%)", "Max Disk Read (kB/s)", "Total Time (s)"]

/-- All columns the script reads. -/
def requiredCols : List String := "Worker Count" :: numeric_cols

/-- The coercion loop `for col in numeric_cols: df[col] = pd.to_numeric(df[col], errors="coerce")`. -/
def coerceCols : DataFrame → List String → Except PyErr DataFrame
  | df, [] => .ok df
  | df, c :: cs =>
    match df.getCol c with
    | .error e => .error e
    | .ok vs => coerceCols (df.setCol c (vs.map to_numeric)) cs

/-- `create_label(row)` from the script, applied to one row. -/
def create_label (hdr : List String) (r : List Value) : Except PyErr String :=
  match rowGet hdr r "Worker Count" with
  | .error e => .error e
  | .ok wc =>
    if eqZero wc then
      match rowGet hdr r "Actual Workers" with
      | .error e => .error e
      | .ok aw =>
        if notna aw then
          match pyInt aw with
          | .error e => .error e
          | .ok n => .ok ("Auto (" ++ toString n ++ ")")
        else .ok "Auto (N/A)"
    else
      match pyInt wc with
      | .error e => .error e
      | .ok n => .ok (toString n)

/-- `df.apply(create_label, axis=1)`: the function runs once per row, in
order, and the first exception aborts; on an empty frame it is not called. -/
def applyCreateLabel (hdr : List String) : List (List Value) → Except PyErr (List String)
  | [] => .ok []
  | r :: rs =>
    match create_label hdr r with
    | .error e => .error e
    | .ok s =>
      match applyCreateLabel hdr rs with
      | .error e => .error e
      | .ok ls => .ok (s :: ls)

/-- Index (and value) of the extremal numeric cell of a column, skipping
NaN; ties keep the first occurrence, as pandas `idxmin`/`idxmax` do.
`isBetter r q` means a later value `r` strictly beats the current best `q`. -/
def argBestCons (isBetter : ℚ → ℚ → Bool) (q : ℚ) : Option (Nat × ℚ) → Option (Nat × ℚ)
  | none => some (0, q)
  | some (j, r) => if isBetter r q then some (j + 1, r) else some (0, q)

def argBest (isBetter : ℚ → ℚ → Bool) : List Value → Option (Nat × ℚ)
  | [] => none
  | .num q :: vs => argBestCons isBetter q (argBest isBetter vs)
  | .str _ :: vs => (argBest isBetter vs).map fun p => (p.1 + 1, p.2)
  | .na :: vs => (argBest isBetter vs).map fun p => (p.1 + 1, p.2)

/-- `Series.idxmin` (skipna): `none` models the `ValueError` raised on an
all-NA or empty column. -/
def idxmin (vs : List Value) : Option Nat :=
  (argBest (fun a b => decide (a < b)) vs).map Prod.fst

/-- `Series.idxmax` (skipna). -/
def idxmax (vs : List Value) : Option Nat :=
  (argBest (fun a b => decide (b < a)) vs).map Prod.fst

/-- Highlight color of enumeration index `i` given the best index, from
the palette comprehensions. -/
def colorAt (best i : Nat) : String := if i = best then "green" else "#1f77b4"

/-- Python dict update: an existing key keeps its position and gets the
new value, a fresh key is appended. -/
def dictInsert : List (String × String) → String → String → List (String × String)
  | [], k, v => [(k, v)]
  | (k', v') :: rest, k, v =>
    if k' = k then (k', v) :: rest else (k', v') :: dictInsert rest k v

/-- Python dict lookup. -/
def dictGet (k : String) : List (String × String) → Option String
  | [] => none
  | (k', v) :: d => if k = k' then some v else dictGet k d

/-- The palette dict comprehension
`{label: "green" if i == best else "#1f77b4" for i, label in enumerate(labels)}`,
unrolled with the running enumeration index. -/
def buildPaletteFrom (best : Nat) : List (String × String) → Nat → List String → List (String × String)
  | d, _, [] => d
  | d, i, l :: ls => buildPaletteFrom best (dictInsert d l (colorAt best i)) (i + 1) ls

/-- One panel palette, keyed by worker label. -/
def buildPalette (labels : List String) (best : Nat) : List (String × String) :=
  buildPaletteFrom best [] 0 labels

/-- Largest index at which a label occurs in the label column. -/
def lastIdxOf (l : String) : List String → Option Nat
  | [] => none
  | x :: xs =>
    match lastIdxOf l xs with
    | some j => some (j + 1)
    | none => if x = l then some 0 else none

/-- One pass of the system-info loop over the remaining lines, carrying
the `(os_info, cpu_info, drive_info)` accumulator. -/
def sysFold : String × String × String → List String → String × String × String
  | acc, [] => acc
  | acc, line :: rest =>
    sysFold
      (if pyStartsWith line "OS:" then (pyStrip line, acc.2.1, acc.2.2)
       else if pyStartsWith line "CPU:" then (acc.1, pyStrip line, acc.2.2)
       else if pyStartsWith line "Drive Type:" then (acc.1, acc.2.1, pyStrip line)
       else acc) rest

/-- Reading `system_info.txt`: `none` models an absent file; otherwise the
lines are folded with the `"N/A"` defaults. -/
def parseSysInfo : Option (List String) → String × String × String
  | none => ("OS: N/A", "CPU: N/A", "Drive Type: N/A")
  | some lines => sysFold ("OS: N/A", "CPU: N/A", "Drive Type: N/A") lines

/-- Modelled from the spec sentence for the parser: the last line starting
with the given prefix, scanning the whole file. -/
def lastMatch (pre : String) : List String → Option String
  | [] => none
  | l :: ls =>
    match lastMatch pre ls with
    | some m => some m
    | none => if pyStartsWith l pre then some l else none

/-- Modelled from the spec sentence: the displayed string for a key is the
whitespace-trimmed text of the last line starting with its prefix, or the
default when no line does. -/
def displayOf (pre dflt : String) (lines : List String) : String :=
  match lastMatch pre lines with
  | some l => pyStrip l
  | none => dflt

/-- Floor of a rational, via floor division of numerator by denominator. -/
def ratFloor (x : ℚ) : Int := Int.fdiv x.num x.den

/-- The annotation format `f"{width:.2f}"`: two decimal places (half-up
rounding models the format rounding). -/
def fmt2 (q : ℚ) : String :=
  let n : Int := ratFloor (q * 100 + 1 / 2)
  let sgn := if n < 0 then "-" else ""
  let m := n.natAbs
  sgn ++ toString (m / 100) ++ "." ++ (if m % 100 < 10 then "0" else "") ++ toString (m % 100)

/-- Bar annotation: the value to two decimals, or `"N/A"` for a NaN bar. -/
def annot : Value → String
  | .num q => fmt2 q
  | _ => "N/A"

/-- `os.path.join` for a directory (written without a trailing slash) and
a file name. -/
def pathJoin (dir name : String) : String := dir ++ "/" ++ name

/-- Everything content-determining about the rendered figure. -/
structure Figure where
  suptitle : String
  sysCaption : String
  driveCaption : String
  labels : List String
  bestMem : Nat
  bestCpu : Nat
  bestDisk : Nat
  bestTime : Nat
  memValues : List Value
  cpuValues : List Value
  diskValues : List Value
  timeValues : List Value
  memPalette : List (String × String)
  cpuPalette : List (String × String)
  diskPalette : List (String × String)
  timePalette : List (String × String)
  memAnnots : List String
  cpuAnnots : List String
  diskAnnots : List String
  timeAnnots : List String
  outputPath : String
deriving DecidableEq, Repr

/-- Result of one invocation: the diagnostic missing-summary exit, an
uncaught Python exception, or a saved figure. -/
inductive Outcome where
  | missingSummary (msg : String)
  | pyError (e : PyErr)
  | ok (fig : Figure)
deriving DecidableEq, Repr

/-- Contents of the results directory handed to the script: the parsed
summary table when `summary.csv` exists, and the lines of
`system_info.txt` when that file exists. -/
structure Dir where
  summary : Option DataFrame
  sysInfo : Option (List String)

/-- The body of `plot_benchmark_results` after the summary file was read:
system info, numeric coercion, worker labels, the four extremal indices,
then the figure.  The metric columns are each read once and used both for
the index computation and as the bar values (the two pandas lookups of the
same column give the same list). -/
def runDf (results_dir : String) (df : DataFrame) (sysLines : Option (List String)) : Outcome :=
  let info := parseSysInfo sysLines
  match coerceCols df numeric_cols with
  | .error e => .pyError e
  | .ok df1 =>
  match applyCreateLabel df1.header df1.rows with
  | .error e => .pyError e
  | .ok labels =>
  match df1.getCol "Max Memory (MB)" with
  | .error e => .pyError e
  | .ok mem =>
  match idxmin mem with
  | none => .pyError (.valueError "attempt to get argmin of an empty sequence")
  | some bm =>
  match df1.getCol "Avg CPU (%)" with
  | .error e => .pyError e
  | .ok cpu =>
  match idxmin cpu with
  | none => .pyError (.valueError "attempt to get argmin of an empty sequence")
  | some bc =>
  match df1.getCol "Max Disk Read (kB/s)" with
  | .error e => .pyError e
  | .ok disk =>
  match idxmax disk with
  | none => .pyError (.valueError "attempt to get argmax of an empty sequence")
  | some bd =>
  match df1.getCol "Total Time (s)" with
  | .error e => .pyError e
  | .ok time =>
  match idxmin time with
  | none => .pyError (.valueError "attempt to get argmin of an empty sequence")
  | some bt =>
    .ok {
      suptitle := "mkbrr Performance Benchmark: Varying Worker Counts"
      sysCaption := info.1 ++ " | " ++ info.2.1
      driveCaption := info.2.2
      labels := labels
      bestMem := bm
      bestCpu := bc
      bestDisk := bd
      bestTime := bt
      memValues := mem
      cpuValues := cpu
      diskValues := disk
      timeValues := time
      memPalette := buildPalette labels bm
      cpuPalette := buildPalette labels bc
      diskPalette := buildPalette labels bd
      timePalette := buildPalette labels bt
      memAnnots := mem.map annot
      cpuAnnots := cpu.map annot
      diskAnnots := disk.map annot
      timeAnnots := time.map annot
      outputPath := pathJoin results_dir "benchmark_results.png" }

/-- `plot_benchmark_results(results_dir)`: check for `summary.csv`, then
run the body. -/
def plot_benchmark_results (results_dir : String) (d : Dir) : Outcome :=
  match d.summary with
  | none => .missingSummary ("Error: Summary file not found at " ++ pathJoin results_dir "summary.csv")
  | some df => runDf results_dir df d.sysInfo

/-- Process exit code of an outcome (an uncaught exception also exits 1). -/
def exitCode : Outcome → Nat
  | .missingSummary _ => 1
  | .pyError _ => 1
  | .ok _ => 0

/-- Files the invocation writes. -/
def filesWritten : Outcome → List String
  | .ok fig => [fig.outputPath]
  | _ => []

/-- Lines printed to standard output. -/
def stdoutLines : Outcome → List String
  | .missingSummary m => [m]
  | .pyError _ => []
  | .ok fig => ["Plot saved to: " ++ fig.outputPath]

/-- The figure of a successful outcome. -/
def okFig : Outcome → Option Figure
  | .ok fig => some fig
  | _ => none


/-- A `Worker Count` cell that `create_label` can survive: a number (any
finite number truncates), or a string Python `int()` accepts. -/
def wcCellOk : Value → Bool
  | .num _ => true
  | .str s => (pyParseInt s).isSome
  | .na => false

/-- The column has at least one numeric cell. -/
def hasNumeric (vs : List Value) : Bool := vs.any isNum

/-- Structural conditions under which the body runs to completion: the six
read columns are present, every `Worker Count` cell converts under
`int()`, and each metric column keeps at least one numeric cell after
coercion.  No condition is placed on the other cells: they may be
arbitrarily malformed. -/
def ValidTable (df : DataFrame) : Bool :=
  (requiredCols.all fun c => (colIdx c df.header).isSome) &&
  (df.rows.all fun r => wcCellOk (cellOf df.header r "Worker Count")) &&
  (metric_cols.all fun c => hasNumeric ((df.rows.map fun r => cellOf df.header r c).map to_numeric))

/-- Index `i` holds a numeric cell that is minimal among the numeric cells
of the column (missing cells ignored). -/
def IsMinIdx (vs : List Value) (i : Nat) : Prop :=
  ∃ q, vs[i]? = some (.num q) ∧ ∀ r, Value.num r ∈ vs → q ≤ r

/-- Index `i` holds a numeric cell that is maximal among the numeric cells
of the column (missing cells ignored). -/
def IsMaxIdx (vs : List Value) (i : Nat) : Prop :=
  ∃ q, vs[i]? = some (.num q) ∧ ∀ r, Value.num r ∈ vs → r ≤ q

/-- Specification of `idxmin`: a minimal index when one exists, `none`
exactly on a column with no numeric cell. -/
def MinIdxSpec (vs : List Value) : Option Nat → Prop
  | none => hasNumeric vs = false
  | some i => IsMinIdx vs i

/-- Specification of `idxmax`. -/
def MaxIdxSpec (vs : List Value) : Option Nat → Prop
  | none => hasNumeric vs = false
  | some i => IsMaxIdx vs i

/-- Every figure the program produces has extremal best-of indices for its
four panels (errors produce no figure and assert nothing). -/
def BestIdxProp : Outcome → Prop
  | .ok f => IsMinIdx f.memValues f.bestMem ∧ IsMinIdx f.cpuValues f.bestCpu ∧
      IsMaxIdx f.diskValues f.bestDisk ∧ IsMinIdx f.timeValues f.bestTime
  | _ => True

/-- Every figure the program produces takes each panel palette from the
label-keyed dict comprehension over that panel's best index. -/
def PaletteProp : Outcome → Prop
  | .ok f => f.memPalette = buildPalette f.labels f.bestMem ∧
      f.cpuPalette = buildPalette f.labels f.bestCpu ∧
      f.diskPalette = buildPalette f.labels f.bestDisk ∧
      f.timePalette = buildPalette f.labels f.bestTime
  | _ => True

/-- An `Actual Workers` cell as it can appear after coercion: an integer
value or missing. -/
def awValue : Option Int → Value
  | some m => .num (m : ℚ)
  | none => .na

/-- Modelled from the spec: the worker-label rule as stated — `"Auto (N)"`
when Worker Count is 0 and Actual Workers is present, `"Auto (N/A)"` when
it is missing, otherwise the decimal string of Worker Count. -/
def workerLabelSpec (n : Int) (m : Option Int) : String :=
  if n = 0 then
    match m with
    | some k => "Auto (" ++ toString k ++ ")"
    | none => "Auto (N/A)"
  else toString n

/-- A clean three-run summary table; memory column `[100, 50, 200]`. -/
def dfGood : DataFrame :=
  ⟨["Worker Count", "Actual Workers", "Max Memory (MB)", "Avg CPU (%)", "Max Disk Read (kB/s)", "Total Time (s)"],
   [[.num 1, .num 1, .num 100, .num 50, .num 700, .num 30],
    [.num 2, .num 2, .num 50, .num 60, .num 900, .num 20],
    [.num 4, .num 4, .num 200, .num 70, .num 800, .num 10]]⟩

/-- A table with malformed entries in every coerced column (and a
`Worker Count` of 0 whose `Actual Workers` is malformed). -/
def dfMalformed : DataFrame :=
  ⟨["Worker Count", "Actual Workers", "Max Memory (MB)", "Avg CPU (%)", "Max Disk Read (kB/s)", "Total Time (s)"],
   [[.num 0, .str "garbage", .str "x", .num 10, .str "-", .num 7],
    [.num 2, .num 2, .num 50, .str "??", .num 5, .str "bad"]]⟩

/-- A table whose only malformed cell sits in the `Worker Count` column. -/
def dfWCBad : DataFrame :=
  ⟨["Worker Count", "Actual Workers", "Max Memory (MB)", "Avg CPU (%)", "Max Disk Read (kB/s)", "Total Time (s)"],
   [[.str "abc", .num 1, .num 100, .num 50, .num 900, .num 30]]⟩

/-- Another table with a malformed `Worker Count` cell. -/
def dfWCBad2 : DataFrame :=
  ⟨["Worker Count", "Actual Workers", "Max Memory (MB)", "Avg CPU (%)", "Max Disk Read (kB/s)", "Total Time (s)"],
   [[.num 1, .num 1, .num 100, .num 50, .num 900, .num 30],
    [.str "w", .num 2, .num 50, .num 60, .num 800, .num 20]]⟩

/-- Two runs with worker count 1 and one with 2: duplicate worker labels,
and the third row is best (minimal) in total time. -/
def dfDup : DataFrame :=
  ⟨["Worker Count", "Actual Workers", "Max Memory (MB)", "Avg CPU (%)", "Max Disk Read (kB/s)", "Total Time (s)"],
   [[.num 1, .num 1, .num 10, .num 5, .num 1, .num 5],
    [.num 1, .num 1, .num 20, .num 6, .num 2, .num 5],
    [.num 2, .num 2, .num 30, .num 7, .num 3, .num 1]]⟩

/-- A summary table whose header lacks the `Actual Workers` column. -/
def dfNoCol : DataFrame :=
  ⟨["Worker Count", "Max Memory (MB)", "Avg CPU (%)", "Max Disk Read (kB/s)", "Total Time (s)"],
   [[.num 1, .num 100, .num 50, .num 900, .num 30]]⟩

/-- A table whose `Total Time (s)` column has no parseable cell. -/
def dfAllNa : DataFrame :=
  ⟨["Worker Count", "Actual Workers", "Max Memory (MB)", "Avg CPU (%)", "Max Disk Read (kB/s)", "Total Time (s)"],
   [[.num 1, .num 1, .num 10, .num 50, .num 100, .str "x"],
    [.num 2, .num 2, .num 20, .num 60, .num 200, .na]]⟩

/-- `dfAllNa` after the coercion loop. -/
def dfAllNaC : DataFrame :=
  ⟨["Worker Count", "Actual Workers", "Max Memory (MB)", "Avg CPU (%)", "Max Disk Read (kB/s)", "Total Time (s)"],
   [[.num 1, .num 1, .num 10, .num 50, .num 100, .na],
    [.num 2, .num 2, .num 20, .num 60, .num 200, .na]]⟩

/-! ### Basic facts about cells, coercion and column access -/

theorem to_numeric_na : to_numeric .na = .na := rfl

theorem to_numeric_not_str (v : Value) : isStr (to_numeric v) = false := by
  cases v with
  | num q => rfl
  | na => rfl
  | str s =>
    simp only [to_numeric]
    cases parseDec s <;> rfl

theorem to_numeric_idem (v : Value) : to_numeric (to_numeric v) = to_numeric v := by
  cases v with
  | num q => rfl
  | na => rfl
  | str s =>
    simp only [to_numeric]
    cases parseDec s <;> rfl

theorem to_numeric_unparseable (s : String) (h : parseDec s = none) :
    to_numeric (.str s) = .na := by
  simp [to_numeric, h]

theorem colIdx_get : ∀ (hdr : List String) (c : String) (i : Nat),
    colIdx c hdr = some i → hdr[i]? = some c := by
  intro hdr
  induction hdr with
  | nil => intro c i h; simp [colIdx] at h
  | cons x t ih =>
    intro c i h
    by_cases hx : x = c
    · subst hx
      simp [colIdx] at h
      subst h
      simp
    · simp only [colIdx, if_neg hx, Option.map_eq_some'] at h
      obtain ⟨j, hj, hji⟩ := h
      subst hji
      simpa using ih c j hj

theorem colIdx_inj (hdr : List String) (c1 c2 : String) (i : Nat)
    (h1 : colIdx c1 hdr = some i) (h2 : colIdx c2 hdr = some i) : c1 = c2 := by
  have g1 := colIdx_get hdr c1 i h1
  have g2 := colIdx_get hdr c2 i h2
  rw [g1] at g2
  exact (Option.some.inj g2)

theorem cellAt_nil (i : Nat) : cellAt [] i = .na := by
  cases i <;> rfl

theorem cellAt_set_apply (g : Value → Value) (hg : g .na = .na) :
    ∀ (r : List Value) (i : Nat), cellAt (r.set i (g (cellAt r i))) i = g (cellAt r i) := by
  intro r
  induction r with
  | nil => intro i; simp [cellAt_nil, hg]
  | cons v t ih =>
    intro i
    cases i with
    | zero => rfl
    | succ n => simpa [cellAt] using ih n

theorem cellAt_set_ne (v : Value) :
    ∀ (r : List Value) (i j : Nat), i ≠ j → cellAt (r.set i v) j = cellAt r j := by
  intro r
  induction r with
  | nil => intro i j _; simp
  | cons x t ih =>
    intro i j hne
    cases i with
    | zero =>
      cases j with
      | zero => exact absurd rfl hne
      | succ m => rfl
    | succ n =>
      cases j with
      | zero => rfl
      | succ m => simpa [cellAt] using ih n m (by omega)

theorem zipWith_set_map (i : Nat) (g : Value → Value) :
    ∀ rows : List (List Value),
      List.zipWith (fun r v => r.set i v) rows ((rows.map fun r => cellAt r i).map g) =
      rows.map fun r => r.set i (g (cellAt r i)) := by
  intro rows
  induction rows with
  | nil => rfl
  | cons r rs ih => simp only [List.map_cons, List.zipWith_cons_cons, ih]

/-! ### The extremal-index computation -/

theorem argBest_none_iff (b : ℚ → ℚ → Bool) :
    ∀ vs : List Value, argBest b vs = none ↔ hasNumeric vs = false := by
  intro vs
  induction vs with
  | nil => simp [argBest, hasNumeric]
  | cons v t ih =>
    cases v with
    | num q =>
      refine ⟨fun hno => absurd hno ?_, fun hfa => ?_⟩
      · simp only [argBest]
        rcases argBest b t with _ | ⟨j, r⟩
        · simp [argBestCons]
        · simp only [argBestCons]
          split <;> simp
      · exfalso
        simp [hasNumeric, isNum] at hfa
    | str s =>
      simpa [argBest, hasNumeric, isNum, Option.map_eq_none'] using ih
    | na =>
      simpa [argBest, hasNumeric, isNum, Option.map_eq_none'] using ih

theorem argBest_get (b : ℚ → ℚ → Bool) : ∀ (vs : List Value) (i : Nat) (q : ℚ),
    argBest b vs = some (i, q) → vs[i]? = some (.num q) := by
  intro vs
  induction vs with
  | nil => intro i q h; simp [argBest] at h
  | cons v t ih =>
    intro i q h
    cases v with
    | num q0 =>
      simp only [argBest] at h
      rcases hr : argBest b t with _ | ⟨j, r⟩ <;> rw [hr] at h <;>
        simp only [argBestCons] at h
      · simp only [Option.some.injEq, Prod.mk.injEq] at h
        obtain ⟨hi, hq⟩ := h
        subst hi; subst hq
        simp
      · by_cases hb : b r q0
        · rw [if_pos hb] at h
          simp only [Option.some.injEq, Prod.mk.injEq] at h
          obtain ⟨hi, hq⟩ := h
          subst hi; subst hq
          simpa using ih j r hr
        · rw [if_neg hb] at h
          simp only [Option.some.injEq, Prod.mk.injEq] at h
          obtain ⟨hi, hq⟩ := h
          subst hi; subst hq
          simp
    | str s =>
      simp only [argBest, Option.map_eq_some'] at h
      obtain ⟨⟨j, r⟩, hj, he⟩ := h
      simp only [Prod.mk.injEq] at he
      obtain ⟨hi, hq⟩ := he
      subst hi; subst hq
      simpa using ih j r hj
    | na =>
      simp only [argBest, Option.map_eq_some'] at h
      obtain ⟨⟨j, r⟩, hj, he⟩ := h
      simp only [Prod.mk.injEq] at he
      obtain ⟨hi, hq⟩ := he
      subst hi; subst hq
      simpa using ih j r hj

theorem hasNumeric_false_not_mem (t : List Value) (h : hasNumeric t = false) :
    ∀ r : ℚ, Value.num r ∉ t := by
  intro r hmem
  have : t.any isNum = true := List.any_eq_true.mpr ⟨_, hmem, rfl⟩
  rw [hasNumeric] at h
  rw [h] at this
  exact Bool.false_ne_true this

theorem argBest_best (b : ℚ → ℚ → Bool)
    (hb1 : ∀ x, b x x = false)
    (hb2 : ∀ x y, b x y = true → b y x = false)
    (hb3 : ∀ x y z, b y x = false → b z y = false → b z x = false) :
    ∀ (vs : List Value) (i : Nat) (q : ℚ), argBest b vs = some (i, q) →
      ∀ r, Value.num r ∈ vs → b r q = false := by
  intro vs
  induction vs with
  | nil => intro i q h; simp [argBest] at h
  | cons v t ih =>
    intro i q h r hr
    cases v with
    | num q0 =>
      simp only [argBest] at h
      rcases hrest : argBest b t with _ | ⟨j, s⟩ <;> rw [hrest] at h <;>
        simp only [argBestCons] at h
      · simp only [Option.some.injEq, Prod.mk.injEq] at h
        obtain ⟨hi, hq⟩ := h
        subst hq
        rcases List.mem_cons.mp hr with hhd | htl
        · injection hhd with h2
          subst h2
          exact hb1 r
        · exact absurd htl (hasNumeric_false_not_mem t ((argBest_none_iff b t).mp hrest) r)
      · by_cases hb : b s q0
        · rw [if_pos hb] at h
          simp only [Option.some.injEq, Prod.mk.injEq] at h
          obtain ⟨hi, hq⟩ := h
          subst hq
          rcases List.mem_cons.mp hr with hhd | htl
          · injection hhd with h2
            subst h2
            exact hb2 _ _ hb
          · exact ih j s hrest r htl
        · rw [if_neg hb] at h
          simp only [Option.some.injEq, Prod.mk.injEq] at h
          obtain ⟨hi, hq⟩ := h
          subst hq
          have hb4 : b s q0 = false := by simpa using hb
          rcases List.mem_cons.mp hr with hhd | htl
          · injection hhd with h2
            subst h2
            exact hb1 r
          · exact hb3 q0 s r hb4 (ih j s hrest r htl)
    | str s0 =>
      simp only [argBest, Option.map_eq_some'] at h
      obtain ⟨⟨j, s⟩, hj, he⟩ := h
      simp only [Prod.mk.injEq] at he
      obtain ⟨hi, hq⟩ := he
      subst hq
      rcases List.mem_cons.mp hr with hhd | htl
      · exact absurd hhd (by simp)
      · exact ih j s hj r htl
    | na =>
      simp only [argBest, Option.map_eq_some'] at h
      obtain ⟨⟨j, s⟩, hj, he⟩ := h
      simp only [Prod.mk.injEq] at he
      obtain ⟨hi, hq⟩ := he
      subst hq
      rcases List.mem_cons.mp hr with hhd | htl
      · exact absurd hhd (by simp)
      · exact ih j s hj r htl

theorem idxmin_spec (vs : List Value) : MinIdxSpec vs (idxmin vs) := by
  unfold idxmin
  rcases h : argBest (fun a b => decide (a < b)) vs with _ | ⟨i, q⟩
  · simpa [MinIdxSpec] using (argBest_none_iff _ vs).mp h
  · simp only [Option.map_some', MinIdxSpec, IsMinIdx]
    refine ⟨q, argBest_get _ vs i q h, ?_⟩
    intro r hr
    have hb := argBest_best (fun a b => decide (a < b))
      (fun x => by simp)
      (fun x y hxy => by
        simp only [decide_eq_true_eq] at hxy
        simpa using not_lt.mpr hxy.le)
      (fun x y z h1 h2 => by
        simp only [decide_eq_false_iff_not, not_lt] at h1 h2 ⊢
        exact h1.trans h2)
      vs i q h r hr
    simpa [not_lt] using hb

theorem idxmax_spec (vs : List Value) : MaxIdxSpec vs (idxmax vs) := by
  unfold idxmax
  rcases h : argBest (fun a b => decide (b < a)) vs with _ | ⟨i, q⟩
  · simpa [MaxIdxSpec] using (argBest_none_iff _ vs).mp h
  · simp only [Option.map_some', MaxIdxSpec, IsMaxIdx]
    refine ⟨q, argBest_get _ vs i q h, ?_⟩
    intro r hr
    have hb := argBest_best (fun a b => decide (b < a))
      (fun x => by simp)
      (fun x y hxy => by
        simp only [decide_eq_true_eq] at hxy
        simpa using not_lt.mpr hxy.le)
      (fun x y z h1 h2 => by
        simp only [decide_eq_false_iff_not, not_lt] at h1 h2 ⊢
        exact h2.trans h1)
      vs i q h r hr
    simpa [not_lt] using hb

theorem idxmin_isSome (vs : List Value) (h : hasNumeric vs = true) :
    ∃ i, idxmin vs = some i := by
  rcases ha : argBest (fun a b => decide (a < b)) vs with _ | ⟨i, q⟩
  · rw [(argBest_none_iff _ vs).mp ha] at h
    exact absurd h (by simp)
  · exact ⟨i, by simp [idxmin, ha]⟩

theorem idxmax_isSome (vs : List Value) (h : hasNumeric vs = true) :
    ∃ i, idxmax vs = some i := by
  rcases ha : argBest (fun a b => decide (b < a)) vs with _ | ⟨i, q⟩
  · rw [(argBest_none_iff _ vs).mp ha] at h
    exact absurd h (by simp)
  · exact ⟨i, by simp [idxmax, ha]⟩

theorem idxmin_none (vs : List Value) (h : hasNumeric vs = false) :
    idxmin vs = none := by
  rw [idxmin, (argBest_none_iff _ vs).mpr h]
  rfl

theorem idxmax_none (vs : List Value) (h : hasNumeric vs = false) :
    idxmax vs = none := by
  rw [idxmax, (argBest_none_iff _ vs).mpr h]
  rfl

/-! ### Palette dictionaries -/

theorem dictGet_dictInsert (l k v : String) :
    ∀ d : List (String × String),
      dictGet l (dictInsert d k v) = if l = k then some v else dictGet l d := by
  intro d
  induction d with
  | nil => simp [dictInsert, dictGet]
  | cons p rest ih =>
    obtain ⟨k1, v1⟩ := p
    by_cases hk : k1 = k
    · subst hk
      simp only [dictInsert, if_pos rfl]
      by_cases hl : l = k1
      · subst hl
        simp [dictGet]
      · simp [dictGet, hl]
    · simp only [dictInsert, if_neg hk]
      by_cases hl : l = k1
      · subst hl
        simp [dictGet, hk]
      · simp [dictGet, hl, ih]

theorem buildPaletteFrom_get (best : Nat) (l : String) :
    ∀ (ls : List String) (d : List (String × String)) (i : Nat),
      dictGet l (buildPaletteFrom best d i ls) =
        (lastIdxOf l ls).elim (dictGet l d) (fun j => some (colorAt best (i + j))) := by
  intro ls
  induction ls with
  | nil => intro d i; simp [buildPaletteFrom, lastIdxOf]
  | cons x xs ih =>
    intro d i
    simp only [buildPaletteFrom]
    rw [ih]
    rcases hlast : lastIdxOf l xs with _ | j
    · simp only [lastIdxOf, hlast, Option.elim_none]
      by_cases hx : x = l
      · simp [hx, dictGet_dictInsert]
      · simp [hx, dictGet_dictInsert, dictGet]
        intro h
        exact absurd h.symm hx
    · simp only [lastIdxOf, hlast, Option.elim_some]
      have harith : i + 1 + j = i + (j + 1) := by omega
      rw [harith]

theorem lastIdxOf_not_mem (l : String) : ∀ ls : List String, l ∉ ls → lastIdxOf l ls = none := by
  intro ls
  induction ls with
  | nil => intro _; rfl
  | cons x xs ih =>
    intro h
    have hx : ¬ x = l := fun he => h (he ▸ List.mem_cons_self x xs)
    simp only [lastIdxOf, ih (fun hm => h (List.mem_cons_of_mem x hm))]
    simp [hx]

theorem lastIdxOf_nodup (l : String) : ∀ (ls : List String) (i : Nat),
    ls.Nodup → ls[i]? = some l → lastIdxOf l ls = some i := by
  intro ls
  induction ls with
  | nil => intro i _ h; simp at h
  | cons x xs ih =>
    intro i hnd h
    cases i with
    | zero =>
      simp only [List.getElem?_cons_zero, Option.some.injEq] at h
      subst h
      have hnm : x ∉ xs := (List.nodup_cons.mp hnd).1
      simp [lastIdxOf, lastIdxOf_not_mem x xs hnm]
    | succ n =>
      simp only [List.getElem?_cons_succ] at h
      have hx := ih n (List.nodup_cons.mp hnd).2 h
      simp [lastIdxOf, hx]

theorem dictGet_buildPalette (labels : List String) (best : Nat) (l : String) :
    dictGet l (buildPalette labels best) = (lastIdxOf l labels).map (colorAt best) := by
  rw [buildPalette, buildPaletteFrom_get]
  rcases lastIdxOf l labels with _ | j <;> simp [dictGet]

/-! ### The system-info parser -/

theorem isPrefixList_excl {c d : Char} {cs ds l : List Char} (hne : c ≠ d)
    (h : isPrefixList (c :: cs) l = true) : isPrefixList (d :: ds) l = false := by
  cases l with
  | nil => simp [isPrefixList] at h
  | cons e es =>
    simp only [isPrefixList, Bool.and_eq_true, decide_eq_true_eq] at h
    obtain ⟨hce, _⟩ := h
    subst hce
    simp [isPrefixList, Ne.symm hne]

theorem startsWith_excl (line p1 p2 : String) (c d : Char) (cs ds : List Char)
    (h1 : p1.data = c :: cs) (h2 : p2.data = d :: ds) (hne : c ≠ d)
    (h : pyStartsWith line p1 = true) : pyStartsWith line p2 = false := by
  rw [pyStartsWith, h1] at h
  rw [pyStartsWith, h2]
  exact isPrefixList_excl hne h

theorem displayOf_cons_pos (pre dflt line : String) (rest : List String)
    (h : pyStartsWith line pre = true) :
    displayOf pre dflt (line :: rest) = displayOf pre (pyStrip line) rest := by
  rcases hm : lastMatch pre rest with _ | m
  · simp [displayOf, lastMatch, hm, h]
  · simp [displayOf, lastMatch, hm]

theorem displayOf_cons_neg (pre dflt line : String) (rest : List String)
    (h : pyStartsWith line pre = false) :
    displayOf pre dflt (line :: rest) = displayOf pre dflt rest := by
  rcases hm : lastMatch pre rest with _ | m <;> simp [displayOf, lastMatch, hm, h]

theorem sysFold_eq : ∀ (lines : List String) (a b c : String),
    sysFold (a, b, c) lines =
      (displayOf "OS:" a lines, displayOf "CPU:" b lines, displayOf "Drive Type:" c lines) := by
  intro lines
  induction lines with
  | nil => intro a b c; rfl
  | cons line rest ih =>
    intro a b c
    by_cases hos : pyStartsWith line "OS:" = true
    · have hcpu : pyStartsWith line "CPU:" = false :=
        startsWith_excl line "OS:" "CPU:" 'O' 'C' _ _ rfl rfl (by decide) hos
      have hdrv : pyStartsWith line "Drive Type:" = false :=
        startsWith_excl line "OS:" "Drive Type:" 'O' 'D' _ _ rfl rfl (by decide) hos
      simp only [sysFold, hos, if_true]
      rw [ih, displayOf_cons_pos _ _ _ _ hos, displayOf_cons_neg _ _ _ _ hcpu,
        displayOf_cons_neg _ _ _ _ hdrv]
    · have hos' : pyStartsWith line "OS:" = false := by simpa using hos
      by_cases hcpu : pyStartsWith line "CPU:" = true
      · have hdrv : pyStartsWith line "Drive Type:" = false :=
          startsWith_excl line "CPU:" "Drive Type:" 'C' 'D' _ _ rfl rfl (by decide) hcpu
        simp only [sysFold, hos', hcpu, if_true, Bool.false_eq_true, if_false]
        rw [ih, displayOf_cons_neg _ _ _ _ hos', displayOf_cons_pos _ _ _ _ hcpu,
          displayOf_cons_neg _ _ _ _ hdrv]
      · have hcpu' : pyStartsWith line "CPU:" = false := by simpa using hcpu
        by_cases hdrv : pyStartsWith line "Drive Type:" = true
        · simp only [sysFold, hos', hcpu', hdrv, if_true, Bool.false_eq_true, if_false]
          rw [ih, displayOf_cons_neg _ _ _ _ hos', displayOf_cons_neg _ _ _ _ hcpu',
            displayOf_cons_pos _ _ _ _ hdrv]
        · have hdrv' : pyStartsWith line "Drive Type:" = false := by simpa using hdrv
          simp only [sysFold, hos', hcpu', hdrv', Bool.false_eq_true, if_false]
          rw [ih, displayOf_cons_neg _ _ _ _ hos', displayOf_cons_neg _ _ _ _ hcpu',
            displayOf_cons_neg _ _ _ _ hdrv']

/-! ### The coercion loop -/

theorem setCol_header_some (df : DataFrame) (c : String) (vs : List Value) (i : Nat)
    (h : colIdx c df.header = some i) : (df.setCol c vs).header = df.header := by
  simp [DataFrame.setCol, h]

theorem getCol_some (df : DataFrame) (c : String) (i : Nat) (h : colIdx c df.header = some i) :
    df.getCol c = .ok (df.rows.map fun r => cellAt r i) := by
  simp [DataFrame.getCol, h]

theorem getCol_none (df : DataFrame) (c : String) (h : colIdx c df.header = none) :
    df.getCol c = .error (.keyError c) := by
  simp [DataFrame.getCol, h]

theorem coerceCols_ok_facts : ∀ (cs : List String) (df df' : DataFrame),
    coerceCols df cs = .ok df' →
      df'.header = df.header ∧ df'.rows.length = df.rows.length := by
  intro cs
  induction cs with
  | nil =>
    intro df df' h
    injection h with h'
    subst h'
    exact ⟨rfl, rfl⟩
  | cons c cs ih =>
    intro df df' h
    simp only [coerceCols] at h
    rcases hci : colIdx c df.header with _ | i
    · rw [getCol_none df c hci] at h
      exact absurd h (by simp)
    · rw [getCol_some df c i hci] at h
      have h' : coerceCols (df.setCol c ((df.rows.map fun r => cellAt r i).map to_numeric)) cs = .ok df' := h
      have hfacts := ih _ _ h'
      have hsh : (df.setCol c ((df.rows.map fun r => cellAt r i).map to_numeric)).header = df.header :=
        setCol_header_some df c _ i hci
      have hsl : (df.setCol c ((df.rows.map fun r => cellAt r i).map to_numeric)).rows.length = df.rows.length := by
        simp [DataFrame.setCol, hci, List.length_zipWith]
      exact ⟨hfacts.1.trans hsh, hfacts.2.trans hsl⟩

theorem coerceCols_ok : ∀ (cs : List String) (df : DataFrame),
    (∀ c ∈ cs, (colIdx c df.header).isSome) → ∃ df', coerceCols df cs = .ok df' := by
  intro cs
  induction cs with
  | nil => intro df _; exact ⟨df, rfl⟩
  | cons c cs ih =>
    intro df hall
    rcases Option.isSome_iff_exists.mp (hall c (List.mem_cons_self c cs)) with ⟨i, hci⟩
    have hnext : ∀ c' ∈ cs,
        (colIdx c' (df.setCol c ((df.rows.map fun r => cellAt r i).map to_numeric)).header).isSome := by
      intro c' hc'
      rw [setCol_header_some df c _ i hci]
      exact hall c' (List.mem_cons_of_mem c hc')
    obtain ⟨df', hdf'⟩ := ih _ hnext
    refine ⟨df', ?_⟩
    simp only [coerceCols]
    rw [getCol_some df c i hci]
    exact hdf'

theorem coerceCols_err : ∀ (cs : List String) (df : DataFrame) (c : String),
    c ∈ cs → colIdx c df.header = none → ∃ e, coerceCols df cs = .error e := by
  intro cs
  induction cs with
  | nil => intro df c h; simp at h
  | cons c0 cs ih =>
    intro df c hmem hnone
    rcases hci : colIdx c0 df.header with _ | i
    · refine ⟨.keyError c0, ?_⟩
      simp only [coerceCols]
      rw [getCol_none df c0 hci]
    · have hc0 : c ≠ c0 := fun he => by
        rw [he, hci] at hnone
        exact Option.noConfusion hnone
      have hmem' : c ∈ cs := by
        rcases List.mem_cons.mp hmem with h1 | h1
        · exact absurd h1 hc0
        · exact h1
      have hnone' :
          colIdx c (df.setCol c0 ((df.rows.map fun r => cellAt r i).map to_numeric)).header = none := by
        rw [setCol_header_some df c0 _ i hci]
        exact hnone
      obtain ⟨e, he⟩ := ih _ c hmem' hnone'
      refine ⟨e, ?_⟩
      simp only [coerceCols]
      rw [getCol_some df c0 i hci]
      exact he

theorem coerceCols_cells : ∀ (cs : List String) (df df' : DataFrame),
    coerceCols df cs = .ok df' → ∀ (c : String) (i : Nat), colIdx c df.header = some i →
      (df'.rows.map fun r => cellAt r i) =
        if c ∈ cs then df.rows.map fun r => to_numeric (cellAt r i)
        else df.rows.map fun r => cellAt r i := by
  intro cs
  induction cs with
  | nil =>
    intro df df' h c i _
    injection h with h'
    subst h'
    simp
  | cons c0 cs ih =>
    intro df df' h c i hci
    simp only [coerceCols] at h
    rcases hc0 : colIdx c0 df.header with _ | i0
    · rw [getCol_none df c0 hc0] at h
      exact absurd h (by simp)
    · rw [getCol_some df c0 i0 hc0] at h
      have h' : coerceCols (df.setCol c0 ((df.rows.map fun r => cellAt r i0).map to_numeric)) cs = .ok df' := h
      set dfm := df.setCol c0 ((df.rows.map fun r => cellAt r i0).map to_numeric) with hdfm
      have hmh : dfm.header = df.header := setCol_header_some df c0 _ i0 hc0
      have hmrows : dfm.rows = df.rows.map fun r => r.set i0 (to_numeric (cellAt r i0)) := by
        simp only [hdfm, DataFrame.setCol, hc0]
        exact zipWith_set_map i0 to_numeric df.rows
      have hci' : colIdx c dfm.header = some i := by
        rw [hmh]
        exact hci
      have hih := ih dfm df' h' c i hci'
      by_cases hcc : c = c0
      · subst hcc
        have hii : i = i0 := by
          rw [hci] at hc0
          exact Option.some.inj hc0
        subst hii
        have hmcol : (dfm.rows.map fun r => cellAt r i) = df.rows.map fun r => to_numeric (cellAt r i) := by
          rw [hmrows, List.map_map]
          congr 1
          funext r
          exact cellAt_set_apply to_numeric rfl r i
        have hmcol2 : (dfm.rows.map fun r => to_numeric (cellAt r i)) =
            df.rows.map fun r => to_numeric (cellAt r i) := by
          rw [hmrows, List.map_map]
          congr 1
          funext r
          show to_numeric (cellAt (r.set i (to_numeric (cellAt r i))) i) = to_numeric (cellAt r i)
          rw [cellAt_set_apply to_numeric rfl r i, to_numeric_idem]
        rw [if_pos (List.mem_cons_self c cs)]
        by_cases hmem : c ∈ cs
        · rw [hih, if_pos hmem, hmcol2]
        · rw [hih, if_neg hmem, hmcol]
      · have hii : i ≠ i0 := fun he => hcc (colIdx_inj df.header c c0 i hci (he ▸ hc0))
        have hmcol : (dfm.rows.map fun r => cellAt r i) = df.rows.map fun r => cellAt r i := by
          rw [hmrows, List.map_map]
          congr 1
          funext r
          exact cellAt_set_ne _ r i0 i (fun he => hii he.symm)
        have hmcol2 : (dfm.rows.map fun r => to_numeric (cellAt r i)) =
            df.rows.map fun r => to_numeric (cellAt r i) := by
          rw [hmrows, List.map_map]
          congr 1
          funext r
          show to_numeric (cellAt (r.set i0 (to_numeric (cellAt r i0))) i) = to_numeric (cellAt r i)
          rw [cellAt_set_ne _ r i0 i (fun he => hii he.symm)]
        have hmm : (c ∈ c0 :: cs) ↔ (c ∈ cs) := by
          simp [List.mem_cons, hcc]
        by_cases hmem : c ∈ cs
        · rw [if_pos (hmm.mpr hmem), hih, if_pos hmem, hmcol2]
        · rw [if_neg (fun hx => hmem (hmm.mp hx)), hih, if_neg hmem, hmcol]

/-! ### Worker labels -/

theorem fdiv_one (a : Int) : Int.fdiv a 1 = a := by
  rcases a with m | m
  · cases m with
    | zero => rfl
    | succ k => simp [Int.fdiv]
  · simp [Int.fdiv]

theorem ratTrunc_intCast (m : Int) : ratTrunc (m : ℚ) = m := by
  simp [ratTrunc, Rat.num_intCast, Rat.den_intCast, fdiv_one, neg_neg]

theorem pyInt_intCast (m : Int) : pyInt (.num (m : ℚ)) = .ok m := by
  simp [pyInt, ratTrunc_intCast]

theorem eqZero_intCast (n : Int) : eqZero (.num (n : ℚ)) = decide (n = 0) := by
  show decide ((n : ℚ) = 0) = decide (n = 0)
  exact decide_eq_decide.mpr Int.cast_eq_zero

theorem create_label_spec (hdr : List String) (r : List Value) (n : Int) (m : Option Int)
    (hwc : rowGet hdr r "Worker Count" = .ok (.num (n : ℚ)))
    (haw : rowGet hdr r "Actual Workers" = .ok (awValue m)) :
    create_label hdr r = .ok (workerLabelSpec n m) := by
  simp only [create_label, hwc, eqZero_intCast]
  by_cases hn : n = 0
  · subst hn
    simp only [decide_True, if_true, haw]
    cases m with
    | some k => simp [awValue, notna, pyInt_intCast, workerLabelSpec]
    | none => simp [awValue, notna, workerLabelSpec]
  · simp only [hn, decide_False, Bool.false_eq_true, if_false, pyInt_intCast, workerLabelSpec]

theorem applyCreateLabel_ok (hdr : List String) : ∀ rows : List (List Value),
    (∀ r ∈ rows, ∃ s, create_label hdr r = .ok s) →
    ∃ ls, applyCreateLabel hdr rows = .ok ls ∧ ls.length = rows.length := by
  intro rows
  induction rows with
  | nil => intro _; exact ⟨[], rfl, rfl⟩
  | cons r rs ih =>
    intro h
    obtain ⟨s, hs⟩ := h r (List.mem_cons_self r rs)
    obtain ⟨ls, hls, hlen⟩ := ih (fun r2 hr2 => h r2 (List.mem_cons_of_mem r hr2))
    refine ⟨s :: ls, ?_, by simp [hlen]⟩
    simp only [applyCreateLabel, hs, hls]

theorem applyCreateLabel_err_head (hdr : List String) (r : List Value) (rs : List (List Value))
    (e : PyErr) (h : create_label hdr r = .error e) :
    applyCreateLabel hdr (r :: rs) = .error e := by
  simp only [applyCreateLabel, h]

theorem create_label_ok (hdr : List String) (r : List Value) (iw ia : Nat)
    (hiw : colIdx "Worker Count" hdr = some iw)
    (hia : colIdx "Actual Workers" hdr = some ia)
    (h1 : wcCellOk (cellAt r iw) = true)
    (h2 : isStr (cellAt r ia) = false) :
    ∃ s, create_label hdr r = .ok s := by
  simp only [create_label, rowGet, hiw, hia]
  rcases hwc : cellAt r iw with q | s0 | _
  · by_cases hz : eqZero (.num q) = true
    · rw [if_pos hz]
      rcases haw : cellAt r ia with q2 | s2 | _
      · simp [notna, pyInt]
      · rw [haw] at h2
        simp [isStr] at h2
      · simp [notna]
    · rw [if_neg hz]
      simp [pyInt]
  · rw [hwc] at h1
    simp only [wcCellOk] at h1
    obtain ⟨k, hk⟩ := Option.isSome_iff_exists.mp h1
    simp [eqZero, pyInt, hk]
  · rw [hwc] at h1
    simp [wcCellOk] at h1

theorem pointwise_of_map_eq {α β : Type} {f g : α → β} :
    ∀ {l1 l2 : List α}, l1.map f = l2.map g → ∀ a ∈ l1, ∃ b ∈ l2, f a = g b := by
  intro l1
  induction l1 with
  | nil => intro l2 _ a ha; simp at ha
  | cons x xs ih =>
    intro l2 h a ha
    cases l2 with
    | nil => simp at h
    | cons y ys =>
      simp only [List.map_cons, List.cons.injEq] at h
      rcases List.mem_cons.mp ha with h1 | h1
      · subst h1
        exact ⟨y, List.mem_cons_self y ys, h.1⟩
      · obtain ⟨b, hb, he⟩ := ih h.2 a h1
        exact ⟨b, List.mem_cons_of_mem y hb, he⟩

/-! ### Run-to-completion machinery -/

theorem labels_ok (df df1 : DataFrame) (hco : coerceCols df numeric_cols = .ok df1)
    (iw ia : Nat)
    (hiw : colIdx "Worker Count" df.header = some iw)
    (hia : colIdx "Actual Workers" df.header = some ia)
    (hwc : ∀ r ∈ df.rows, wcCellOk (cellOf df.header r "Worker Count") = true) :
    ∃ ls, applyCreateLabel df1.header df1.rows = .ok ls ∧ ls.length = df1.rows.length := by
  have hhd := (coerceCols_ok_facts _ _ _ hco).1
  apply applyCreateLabel_ok
  intro r2 hr2
  apply create_label_ok df1.header r2 iw ia (by rw [hhd]; exact hiw) (by rw [hhd]; exact hia)
  · have hcells := coerceCols_cells _ _ _ hco "Worker Count" iw hiw
    rw [if_neg (by decide : ¬ "Worker Count" ∈ numeric_cols)] at hcells
    obtain ⟨b, hb, heq⟩ := pointwise_of_map_eq hcells r2 hr2
    rw [heq]
    have hb2 := hwc b hb
    rwa [show cellOf df.header b "Worker Count" = cellAt b iw from by simp [cellOf, hiw]] at hb2
  · have hcells := coerceCols_cells _ _ _ hco "Actual Workers" ia hia
    rw [if_pos (by decide : "Actual Workers" ∈ numeric_cols)] at hcells
    obtain ⟨b, hb, heq⟩ := pointwise_of_map_eq hcells r2 hr2
    rw [heq]
    exact to_numeric_not_str _

theorem metric_col_ok (df df1 : DataFrame) (hco : coerceCols df numeric_cols = .ok df1)
    (c : String) (hcn : c ∈ numeric_cols) (ic : Nat) (hic : colIdx c df.header = some ic)
    (hmet : hasNumeric ((df.rows.map fun r => cellOf df.header r c).map to_numeric) = true) :
    ∃ col, df1.getCol c = .ok col ∧ hasNumeric col = true := by
  have hhd := (coerceCols_ok_facts _ _ _ hco).1
  have hic1 : colIdx c df1.header = some ic := by
    rw [hhd]
    exact hic
  refine ⟨df1.rows.map fun r => cellAt r ic, getCol_some df1 c ic hic1, ?_⟩
  rw [coerceCols_cells _ _ _ hco c ic hic, if_pos hcn]
  have hfun : (fun r => cellOf df.header r c) = fun r : List Value => cellAt r ic := by
    funext r
    simp [cellOf, hic]
  rw [hfun, List.map_map] at hmet
  simpa [Function.comp] using hmet

theorem runDf_ok_of_valid (rd : String) (df : DataFrame) (sys : Option (List String))
    (h : ValidTable df = true) :
    ∃ fig, runDf rd df sys = .ok fig ∧
      fig.sysCaption = (parseSysInfo sys).1 ++ " | " ++ (parseSysInfo sys).2.1 ∧
      fig.driveCaption = (parseSysInfo sys).2.2 ∧
      fig.outputPath = pathJoin rd "benchmark_results.png" := by
  simp only [ValidTable, Bool.and_eq_true, List.all_eq_true] at h
  obtain ⟨⟨hreq, hwc⟩, hmet⟩ := h
  obtain ⟨df1, hco⟩ := coerceCols_ok numeric_cols df
    (fun c hc => hreq c (List.mem_cons_of_mem _ hc))
  obtain ⟨iw, hiw⟩ := Option.isSome_iff_exists.mp (hreq "Worker Count" (by decide))
  obtain ⟨ia, hia⟩ := Option.isSome_iff_exists.mp (hreq "Actual Workers" (by decide))
  obtain ⟨ls, hls, _⟩ := labels_ok df df1 hco iw ia hiw hia hwc
  obtain ⟨im, him⟩ := Option.isSome_iff_exists.mp (hreq "Max Memory (MB)" (by decide))
  obtain ⟨memcol, hmemcol, hmemnum⟩ :=
    metric_col_ok df df1 hco "Max Memory (MB)" (by decide) im him (hmet _ (by decide))
  obtain ⟨bm, hbm⟩ := idxmin_isSome memcol hmemnum
  obtain ⟨ic, hic⟩ := Option.isSome_iff_exists.mp (hreq "Avg CPU (%)" (by decide))
  obtain ⟨cpucol, hcpucol, hcpunum⟩ :=
    metric_col_ok df df1 hco "Avg CPU (%)" (by decide) ic hic (hmet _ (by decide))
  obtain ⟨bc, hbc⟩ := idxmin_isSome cpucol hcpunum
  obtain ⟨idk, hidk⟩ := Option.isSome_iff_exists.mp (hreq "Max Disk Read (kB/s)" (by decide))
  obtain ⟨diskcol, hdiskcol, hdisknum⟩ :=
    metric_col_ok df df1 hco "Max Disk Read (kB/s)" (by decide) idk hidk (hmet _ (by decide))
  obtain ⟨bd, hbd⟩ := idxmax_isSome diskcol hdisknum
  obtain ⟨it, hit⟩ := Option.isSome_iff_exists.mp (hreq "Total Time (s)" (by decide))
  obtain ⟨timecol, htimecol, htimenum⟩ :=
    metric_col_ok df df1 hco "Total Time (s)" (by decide) it hit (hmet _ (by decide))
  obtain ⟨bt, hbt⟩ := idxmin_isSome timecol htimenum
  simp only [runDf, hco, hls, hmemcol, hbm, hcpucol, hbc, hdiskcol, hbd, htimecol, hbt]
  exact ⟨_, rfl, rfl, rfl, rfl⟩

theorem bestIdxProp_runDf (rd : String) (df : DataFrame) (sys : Option (List String)) :
    BestIdxProp (runDf rd df sys) := by
  rcases hco : coerceCols df numeric_cols with e | df1
  · simp [runDf, hco, BestIdxProp]
  rcases hls : applyCreateLabel df1.header df1.rows with e | ls
  · simp [runDf, hco, hls, BestIdxProp]
  rcases hmc : df1.getCol "Max Memory (MB)" with e | mem
  · simp [runDf, hco, hls, hmc, BestIdxProp]
  rcases hbm : idxmin mem with _ | bm
  · simp [runDf, hco, hls, hmc, hbm, BestIdxProp]
  rcases hcc : df1.getCol "Avg CPU (%)" with e | cpu
  · simp [runDf, hco, hls, hmc, hbm, hcc, BestIdxProp]
  rcases hbc : idxmin cpu with _ | bc
  · simp [runDf, hco, hls, hmc, hbm, hcc, hbc, BestIdxProp]
  rcases hdc : df1.getCol "Max Disk Read (kB/s)" with e | disk
  · simp [runDf, hco, hls, hmc, hbm, hcc, hbc, hdc, BestIdxProp]
  rcases hbd : idxmax disk with _ | bd
  · simp [runDf, hco, hls, hmc, hbm, hcc, hbc, hdc, hbd, BestIdxProp]
  rcases htc : df1.getCol "Total Time (s)" with e | time
  · simp [runDf, hco, hls, hmc, hbm, hcc, hbc, hdc, hbd, htc, BestIdxProp]
  rcases hbt : idxmin time with _ | bt
  · simp [runDf, hco, hls, hmc, hbm, hcc, hbc, hdc, hbd, htc, hbt, BestIdxProp]
  simp only [runDf, hco, hls, hmc, hbm, hcc, hbc, hdc, hbd, htc, hbt, BestIdxProp]
  refine ⟨?_, ?_, ?_, ?_⟩
  · have hs := idxmin_spec mem
    rw [hbm] at hs
    exact hs
  · have hs := idxmin_spec cpu
    rw [hbc] at hs
    exact hs
  · have hs := idxmax_spec disk
    rw [hbd] at hs
    exact hs
  · have hs := idxmin_spec time
    rw [hbt] at hs
    exact hs

theorem paletteProp_runDf (rd : String) (df : DataFrame) (sys : Option (List String)) :
    PaletteProp (runDf rd df sys) := by
  rcases hco : coerceCols df numeric_cols with e | df1
  · simp [runDf, hco, PaletteProp]
  rcases hls : applyCreateLabel df1.header df1.rows with e | ls
  · simp [runDf, hco, hls, PaletteProp]
  rcases hmc : df1.getCol "Max Memory (MB)" with e | mem
  · simp [runDf, hco, hls, hmc, PaletteProp]
  rcases hbm : idxmin mem with _ | bm
  · simp [runDf, hco, hls, hmc, hbm, PaletteProp]
  rcases hcc : df1.getCol "Avg CPU (%)" with e | cpu
  · simp [runDf, hco, hls, hmc, hbm, hcc, PaletteProp]
  rcases hbc : idxmin cpu with _ | bc
  · simp [runDf, hco, hls, hmc, hbm, hcc, hbc, PaletteProp]
  rcases hdc : df1.getCol "Max Disk Read (kB/s)" with e | disk
  · simp [runDf, hco, hls, hmc, hbm, hcc, hbc, hdc, PaletteProp]
  rcases hbd : idxmax disk with _ | bd
  · simp [runDf, hco, hls, hmc, hbm, hcc, hbc, hdc, hbd, PaletteProp]
  rcases htc : df1.getCol "Total Time (s)" with e | time
  · simp [runDf, hco, hls, hmc, hbm, hcc, hbc, hdc, hbd, htc, PaletteProp]
  rcases hbt : idxmin time with _ | bt
  · simp [runDf, hco, hls, hmc, hbm, hcc, hbc, hdc, hbd, htc, hbt, PaletteProp]
  simp only [runDf, hco, hls, hmc, hbm, hcc, hbc, hdc, hbd, htc, hbt, PaletteProp]
  exact ⟨trivial, trivial, trivial, trivial⟩

theorem runDf_err_of_allNa (rd : String) (df df1 : DataFrame) (sys : Option (List String))
    (c : String) (col : List Value)
    (hco : coerceCols df numeric_cols = .ok df1)
    (hc : c ∈ metric_cols)
    (hcol : df1.getCol c = .ok col)
    (hna : hasNumeric col = false) :
    ∃ e, runDf rd df sys = .pyError e := by
  rcases hls : applyCreateLabel df1.header df1.rows with e | ls
  · exact ⟨e, by simp [runDf, hco, hls]⟩
  have hc4 : c = "Max Memory (MB)" ∨ c = "Avg CPU (%)" ∨ c = "Max Disk Read (kB/s)" ∨
      c = "Total Time (s)" := by
    simpa [metric_cols] using hc
  rcases hc4 with rfl | rfl | rfl | rfl
  · exact ⟨PyErr.valueError "attempt to get argmin of an empty sequence", by simp [runDf, hco, hls, hcol, idxmin_none col hna]⟩
  · rcases hmc : df1.getCol "Max Memory (MB)" with e | mem
    · exact ⟨e, by simp [runDf, hco, hls, hmc]⟩
    rcases hbm : idxmin mem with _ | bm
    · exact ⟨PyErr.valueError "attempt to get argmin of an empty sequence", by simp [runDf, hco, hls, hmc, hbm]⟩
    exact ⟨PyErr.valueError "attempt to get argmin of an empty sequence", by simp [runDf, hco, hls, hmc, hbm, hcol, idxmin_none col hna]⟩
  · rcases hmc : df1.getCol "Max Memory (MB)" with e | mem
    · exact ⟨e, by simp [runDf, hco, hls, hmc]⟩
    rcases hbm : idxmin mem with _ | bm
    · exact ⟨PyErr.valueError "attempt to get argmin of an empty sequence", by simp [runDf, hco, hls, hmc, hbm]⟩
    rcases hcc : df1.getCol "Avg CPU (%)" with e | cpu
    · exact ⟨e, by simp [runDf, hco, hls, hmc, hbm, hcc]⟩
    rcases hbc : idxmin cpu with _ | bc
    · exact ⟨PyErr.valueError "attempt to get argmin of an empty sequence", by simp [runDf, hco, hls, hmc, hbm, hcc, hbc]⟩
    exact ⟨PyErr.valueError "attempt to get argmax of an empty sequence", by simp [runDf, hco, hls, hmc, hbm, hcc, hbc, hcol, idxmax_none col hna]⟩
  · rcases hmc : df1.getCol "Max Memory (MB)" with e | mem
    · exact ⟨e, by simp [runDf, hco, hls, hmc]⟩
    rcases hbm : idxmin mem with _ | bm
    · exact ⟨PyErr.valueError "attempt to get argmin of an empty sequence", by simp [runDf, hco, hls, hmc, hbm]⟩
    rcases hcc : df1.getCol "Avg CPU (%)" with e | cpu
    · exact ⟨e, by simp [runDf, hco, hls, hmc, hbm, hcc]⟩
    rcases hbc : idxmin cpu with _ | bc
    · exact ⟨PyErr.valueError "attempt to get argmin of an empty sequence", by simp [runDf, hco, hls, hmc, hbm, hcc, hbc]⟩
    rcases hdc : df1.getCol "Max Disk Read (kB/s)" with e | disk
    · exact ⟨e, by simp [runDf, hco, hls, hmc, hbm, hcc, hbc, hdc]⟩
    rcases hbd : idxmax disk with _ | bd
    · exact ⟨PyErr.valueError "attempt to get argmax of an empty sequence", by simp [runDf, hco, hls, hmc, hbm, hcc, hbc, hdc, hbd]⟩
    exact ⟨PyErr.valueError "attempt to get argmin of an empty sequence", by simp [runDf, hco, hls, hmc, hbm, hcc, hbc, hdc, hbd, hcol, idxmin_none col hna]⟩

theorem applyCreateLabel_length (hdr : List String) : ∀ (rows : List (List Value)) (ls : List String),
    applyCreateLabel hdr rows = .ok ls → ls.length = rows.length := by
  intro rows
  induction rows with
  | nil =>
    intro ls h
    injection h with h2
    subst h2
    rfl
  | cons r rs ih =>
    intro ls h
    simp only [applyCreateLabel] at h
    rcases h1 : create_label hdr r with e | s <;> rw [h1] at h
    · exact absurd h (by simp)
    · rcases h2 : applyCreateLabel hdr rs with e | ls2 <;> rw [h2] at h
      · exact absurd h (by simp)
      · simp only [Except.ok.injEq] at h
        subst h
        simp [ih ls2 h2]

/-! ### The claims -/

/-- C1, counterexample: the claim says a malformed value in any numeric
field, `Worker Count` included, is coerced to missing and the run always
completes.  On a table whose only malformed cell is the `Worker Count`
entry `"abc"` the run raises an uncaught `ValueError` from `int()` and
writes nothing: `Worker Count` is not among the coerced columns. -/
theorem c1_counterexample :
    cellOf dfWCBad.header (dfWCBad.rows.getD 0 []) "Worker Count" = .str "abc" ∧
    plot_benchmark_results "results" ⟨some dfWCBad, none⟩ =
      .pyError (.valueError "invalid literal for int() with base 10: abc") ∧
    filesWritten (plot_benchmark_results "results" ⟨some dfWCBad, none⟩) = [] ∧
    exitCode (plot_benchmark_results "results" ⟨some dfWCBad, none⟩) = 1 := by
  refine ⟨?_, ?_, ?_, ?_⟩ <;> decide

/-- C1, amended: a malformed value in any of the five coerced fields
(`Actual Workers` and the four metrics) is coerced to missing
(`to_numeric` sends every unparseable string to NaN and never leaves a
raw string), and the run completes whenever the structural conditions of
`ValidTable` hold — conditions that put no constraint at all on the
contents of the five coerced columns beyond one numeric cell surviving
per metric column.  Malformed `Worker Count` cells are excluded: they can
abort the run (see the counterexample). -/
theorem c1_amended :
    (∀ s : String, parseDec s = none → to_numeric (.str s) = .na) ∧
    (∀ v : Value, isStr (to_numeric v) = false) ∧
    (∀ (rd : String) (df : DataFrame) (sys : Option (List String)), ValidTable df = true →
      ∃ fig, plot_benchmark_results rd ⟨some df, sys⟩ = .ok fig) := by
  refine ⟨to_numeric_unparseable, to_numeric_not_str, ?_⟩
  intro rd df sys hv
  obtain ⟨fig, hfig, _⟩ := runDf_ok_of_valid rd df sys hv
  exact ⟨fig, hfig⟩

/-- C1 witness: a table with malformed cells in all five coerced columns
still runs to completion, and the malformed cell coerces to missing. -/
theorem c1_amended_witness :
    to_numeric (.str "abc") = .na ∧
    (∃ fig, plot_benchmark_results "results" ⟨some dfMalformed, none⟩ = .ok fig) :=
  ⟨c1_amended.1 "abc" (by decide), c1_amended.2.2 "results" dfMalformed none (by decide)⟩

/-- C2, counterexample: the claim says every row derives exactly one
worker label.  A row whose `Worker Count` cell is the malformed string
`"w"` derives no label: `create_label` raises `ValueError` and the run
aborts. -/
theorem c2_counterexample :
    create_label dfWCBad2.header (dfWCBad2.rows.getD 1 []) =
      .error (.valueError "invalid literal for int() with base 10: w") ∧
    plot_benchmark_results "results" ⟨some dfWCBad2, none⟩ =
      .pyError (.valueError "invalid literal for int() with base 10: w") := by
  refine ⟨?_, ?_⟩ <;> decide

/-- C2, amended: for every row whose `Worker Count` cell holds an integer
value and whose `Actual Workers` cell is an integer or missing (the only
shapes the coerced column can take on integer data), exactly one label is
derived and it follows the specified rule `workerLabelSpec`: `"Auto (N)"`
when Worker Count is 0 and Actual Workers is present, `"Auto (N/A)"` when
it is missing, otherwise the decimal string of Worker Count; and a
successful label pass yields exactly one label per row. -/
theorem c2_amended :
    (∀ (hdr : List String) (r : List Value) (n : Int) (m : Option Int),
      rowGet hdr r "Worker Count" = .ok (.num (n : ℚ)) →
      rowGet hdr r "Actual Workers" = .ok (awValue m) →
      create_label hdr r = .ok (workerLabelSpec n m)) ∧
    (∀ (hdr : List String) (rows : List (List Value)) (ls : List String),
      applyCreateLabel hdr rows = .ok ls → ls.length = rows.length) := by
  exact ⟨fun hdr r n m hwc haw => create_label_spec hdr r n m hwc haw,
    fun hdr rows ls h => applyCreateLabel_length hdr rows ls h⟩

/-- C2 witness: the three cases of the label rule on concrete rows. -/
theorem c2_amended_witness :
    create_label ["Worker Count", "Actual Workers"] [.num ((0 : Int) : ℚ), .num ((4 : Int) : ℚ)] =
      .ok (workerLabelSpec 0 (some 4)) ∧
    create_label ["Worker Count", "Actual Workers"] [.num ((0 : Int) : ℚ), .na] =
      .ok (workerLabelSpec 0 none) ∧
    create_label ["Worker Count", "Actual Workers"] [.num ((2 : Int) : ℚ), .num ((2 : Int) : ℚ)] =
      .ok (workerLabelSpec 2 (some 2)) ∧
    workerLabelSpec 0 (some 4) = "Auto (4)" ∧
    workerLabelSpec 0 none = "Auto (N/A)" ∧
    workerLabelSpec 2 (some 2) = "2" :=
  ⟨c2_amended.1 _ _ 0 (some 4) (by decide) (by decide),
   c2_amended.1 _ _ 0 none (by decide) (by decide),
   c2_amended.1 _ _ 2 (some 2) (by decide) (by decide),
   by decide, by decide, by decide⟩

/-- C3: `idxmin` returns an index holding a minimal numeric cell (missing
cells ignored) and fails exactly on a column without numeric cells;
`idxmax` dually; every produced figure has extremal best-of indices for
all four panels; and on the memory column `[100, 50, 200]` the best
memory index is 1 (zero-based), also through the full pipeline on
`dfGood`. -/
theorem c3_best_indices :
    (∀ vs : List Value, MinIdxSpec vs (idxmin vs)) ∧
    (∀ vs : List Value, MaxIdxSpec vs (idxmax vs)) ∧
    (∀ (rd : String) (d : Dir), BestIdxProp (plot_benchmark_results rd d)) ∧
    idxmin [Value.num 100, Value.num 50, Value.num 200] = some 1 ∧
    (okFig (plot_benchmark_results "results" ⟨some dfGood, none⟩)).map Figure.bestMem = some 1 := by
  refine ⟨idxmin_spec, idxmax_spec, ?_, by decide, by decide⟩
  intro rd d
  rcases d with ⟨summ, sys⟩
  cases summ with
  | none => simp [plot_benchmark_results, BestIdxProp]
  | some df => exact bestIdxProp_runDf rd df sys

/-- C4: when `summary.csv` is absent the program prints the diagnostic
that names the expected path, exits with code 1, and writes no file. -/
theorem c4_missing_summary (rd : String) (d : Dir) (h : d.summary = none) :
    plot_benchmark_results rd d =
      .missingSummary ("Error: Summary file not found at " ++ pathJoin rd "summary.csv") ∧
    exitCode (plot_benchmark_results rd d) = 1 ∧
    stdoutLines (plot_benchmark_results rd d) =
      ["Error: Summary file not found at " ++ pathJoin rd "summary.csv"] ∧
    filesWritten (plot_benchmark_results rd d) = [] := by
  simp [plot_benchmark_results, h, exitCode, stdoutLines, filesWritten]

/-- C4 witness. -/
theorem c4_witness :
    plot_benchmark_results "results" ⟨none, none⟩ =
      .missingSummary ("Error: Summary file not found at " ++ pathJoin "results" "summary.csv") ∧
    exitCode (plot_benchmark_results "results" ⟨none, none⟩) = 1 ∧
    stdoutLines (plot_benchmark_results "results" ⟨none, none⟩) =
      ["Error: Summary file not found at " ++ pathJoin "results" "summary.csv"] ∧
    filesWritten (plot_benchmark_results "results" ⟨none, none⟩) = [] :=
  c4_missing_summary "results" ⟨none, none⟩ rfl

/-- C5: with a valid summary table and no `system_info.txt`, the image is
still produced and the captions are exactly the `"N/A"` defaults. -/
theorem c5_no_sysinfo (rd : String) (df : DataFrame) (h : ValidTable df = true) :
    ∃ fig, plot_benchmark_results rd ⟨some df, none⟩ = .ok fig ∧
      fig.sysCaption = "OS: N/A | CPU: N/A" ∧
      fig.driveCaption = "Drive Type: N/A" ∧
      filesWritten (plot_benchmark_results rd ⟨some df, none⟩) =
        [pathJoin rd "benchmark_results.png"] := by
  obtain ⟨fig, hrun, hsys, hdrv, hout⟩ := runDf_ok_of_valid rd df none h
  have hplot : plot_benchmark_results rd ⟨some df, none⟩ = .ok fig := hrun
  refine ⟨fig, hplot, ?_, ?_, ?_⟩
  · rw [hsys]
    decide
  · rw [hdrv]
    decide
  · rw [hplot]
    simp [filesWritten, hout]

/-- C5 witness. -/
theorem c5_witness :
    ∃ fig, plot_benchmark_results "results" ⟨some dfGood, none⟩ = .ok fig ∧
      fig.sysCaption = "OS: N/A | CPU: N/A" ∧
      fig.driveCaption = "Drive Type: N/A" ∧
      filesWritten (plot_benchmark_results "results" ⟨some dfGood, none⟩) =
        [pathJoin "results" "benchmark_results.png"] :=
  c5_no_sysinfo "results" dfGood (by decide)

/-- C6: the system-info parser processes the lines in order, and each of
the three displayed strings equals the whitespace-trimmed text of the
LAST line starting with its prefix (`"OS:"`, `"CPU:"`, `"Drive Type:"`),
or the `"N/A"` default when no line does. -/
theorem c6_sysinfo_last_wins (lines : List String) :
    parseSysInfo (some lines) =
      (displayOf "OS:" "OS: N/A" lines, displayOf "CPU:" "CPU: N/A" lines,
        displayOf "Drive Type:" "Drive Type: N/A" lines) :=
  sysFold_eq lines "OS: N/A" "CPU: N/A" "Drive Type: N/A"

/-- C7: the program is a pure function of the directory contents — two
runs on identical inputs produce identical outcomes, and in particular
identical labels, best-of indices, bar values, annotation strings,
palettes and captions. -/
theorem c7_deterministic (rd : String) (d1 d2 : Dir) (h : d1 = d2) :
    plot_benchmark_results rd d1 = plot_benchmark_results rd d2 ∧
    (∀ f1 f2 : Figure, plot_benchmark_results rd d1 = .ok f1 →
      plot_benchmark_results rd d2 = .ok f2 →
      f1.labels = f2.labels ∧
      f1.bestMem = f2.bestMem ∧ f1.bestCpu = f2.bestCpu ∧
      f1.bestDisk = f2.bestDisk ∧ f1.bestTime = f2.bestTime ∧
      f1.memValues = f2.memValues ∧ f1.cpuValues = f2.cpuValues ∧
      f1.diskValues = f2.diskValues ∧ f1.timeValues = f2.timeValues ∧
      f1.memAnnots = f2.memAnnots ∧ f1.cpuAnnots = f2.cpuAnnots ∧
      f1.diskAnnots = f2.diskAnnots ∧ f1.timeAnnots = f2.timeAnnots ∧
      f1.memPalette = f2.memPalette ∧ f1.cpuPalette = f2.cpuPalette ∧
      f1.diskPalette = f2.diskPalette ∧ f1.timePalette = f2.timePalette ∧
      f1.sysCaption = f2.sysCaption ∧ f1.driveCaption = f2.driveCaption ∧
      f1.suptitle = f2.suptitle) := by
  subst h
  refine ⟨rfl, ?_⟩
  intro f1 f2 h1 h2
  rw [h1] at h2
  injection h2 with h3
  subst h3
  simp

/-- C7 witness. -/
theorem c7_witness :
    plot_benchmark_results "results" ⟨some dfGood, none⟩ =
      plot_benchmark_results "results" ⟨some dfGood, none⟩ ∧
    (∀ f1 f2 : Figure, plot_benchmark_results "results" ⟨some dfGood, none⟩ = .ok f1 →
      plot_benchmark_results "results" ⟨some dfGood, none⟩ = .ok f2 →
      f1.labels = f2.labels ∧
      f1.bestMem = f2.bestMem ∧ f1.bestCpu = f2.bestCpu ∧
      f1.bestDisk = f2.bestDisk ∧ f1.bestTime = f2.bestTime ∧
      f1.memValues = f2.memValues ∧ f1.cpuValues = f2.cpuValues ∧
      f1.diskValues = f2.diskValues ∧ f1.timeValues = f2.timeValues ∧
      f1.memAnnots = f2.memAnnots ∧ f1.cpuAnnots = f2.cpuAnnots ∧
      f1.diskAnnots = f2.diskAnnots ∧ f1.timeAnnots = f2.timeAnnots ∧
      f1.memPalette = f2.memPalette ∧ f1.cpuPalette = f2.cpuPalette ∧
      f1.diskPalette = f2.diskPalette ∧ f1.timePalette = f2.timePalette ∧
      f1.sysCaption = f2.sysCaption ∧ f1.driveCaption = f2.driveCaption ∧
      f1.suptitle = f2.suptitle) :=
  c7_deterministic "results" ⟨some dfGood, none⟩ ⟨some dfGood, none⟩ rfl

/-- C8, counterexample: on `dfDup` (worker counts 1, 1, 2; third row best
in total time) the best row is the unique green label in the time panel
even though the worker labels `["1", "1", "2"]` are NOT pairwise
distinct: the claimed "exactly when all labels are pairwise distinct"
equivalence fails in the only-if direction. -/
theorem c8_counterexample :
    (okFig (plot_benchmark_results "results" ⟨some dfDup, none⟩)).map Figure.labels =
      some ["1", "1", "2"] ∧
    (okFig (plot_benchmark_results "results" ⟨some dfDup, none⟩)).map Figure.bestTime =
      some 2 ∧
    (okFig (plot_benchmark_results "results" ⟨some dfDup, none⟩)).map
      (fun f => dictGet "2" f.timePalette) = some (some "green") ∧
    (okFig (plot_benchmark_results "results" ⟨some dfDup, none⟩)).map
      (fun f => dictGet "1" f.timePalette) = some (some "#1f77b4") ∧
    ¬ (["1", "1", "2"] : List String).Nodup := by
  refine ⟨?_, ?_, ?_, ?_, ?_⟩ <;> decide

/-- C8, amended: each panel palette is keyed by worker label; rows sharing
a label share a color, namely the color assigned by the largest row index
carrying that label (`lastIdxOf`); when all labels are pairwise distinct
the best-of row is green and every other label is the default blue (the
converse direction of the original claim is dropped: with duplicate
labels elsewhere the best row can still be the unique green); and every
figure the program produces draws its four palettes from this
construction. -/
theorem c8_amended :
    (∀ (labels : List String) (best : Nat) (l : String),
      dictGet l (buildPalette labels best) = (lastIdxOf l labels).map (colorAt best)) ∧
    (∀ (labels : List String) (best i j : Nat),
      labels.getD i "" = labels.getD j "" →
      dictGet (labels.getD i "") (buildPalette labels best) =
        dictGet (labels.getD j "") (buildPalette labels best)) ∧
    (∀ (labels : List String) (best i : Nat) (l : String),
      labels.Nodup → labels[i]? = some l →
      dictGet l (buildPalette labels best) =
        some (if i = best then "green" else "#1f77b4")) ∧
    (∀ (rd : String) (d : Dir), PaletteProp (plot_benchmark_results rd d)) := by
  refine ⟨dictGet_buildPalette, ?_, ?_, ?_⟩
  · intro labels best i j hij
    rw [hij]
  · intro labels best i l hnd hget
    rw [dictGet_buildPalette, lastIdxOf_nodup l labels i hnd hget]
    simp [colorAt]
  · intro rd d
    rcases d with ⟨summ, sys⟩
    cases summ with
    | none => simp [plot_benchmark_results, PaletteProp]
    | some df => exact paletteProp_runDf rd df sys

/-- C8 witness: with pairwise distinct labels the best row is green and
another row is blue. -/
theorem c8_amended_witness :
    dictGet "2" (buildPalette ["1", "2", "4"] 1) = some "green" ∧
    dictGet "4" (buildPalette ["1", "2", "4"] 1) = some "#1f77b4" := by
  constructor
  · have h := c8_amended.2.2.1 ["1", "2", "4"] 1 1 "2" (by decide) (by decide)
    simpa using h
  · have h := c8_amended.2.2.1 ["1", "2", "4"] 1 2 "4" (by decide) (by decide)
    simpa using h

/-- C9: a present summary table lacking one of the six required columns
ends in an uncaught exception, never in the diagnostic missing-file
message, and writes no image. -/
theorem c9_missing_column (rd : String) (d : Dir) (df : DataFrame)
    (hs : d.summary = some df)
    (hmiss : ∃ c ∈ requiredCols, colIdx c df.header = none) :
    (∃ e, plot_benchmark_results rd d = .pyError e) ∧
    (∀ m, plot_benchmark_results rd d ≠ .missingSummary m) ∧
    filesWritten (plot_benchmark_results rd d) = [] := by
  have hplot : plot_benchmark_results rd d = runDf rd df d.sysInfo := by
    simp [plot_benchmark_results, hs]
  have hmain : ∃ e, runDf rd df d.sysInfo = .pyError e := by
    obtain ⟨c, hcm, hcn⟩ := hmiss
    by_cases hnum : ∃ c2 ∈ numeric_cols, colIdx c2 df.header = none
    · obtain ⟨c2, hc2m, hc2n⟩ := hnum
      obtain ⟨e, he⟩ := coerceCols_err numeric_cols df c2 hc2m hc2n
      exact ⟨e, by simp [runDf, he]⟩
    · push_neg at hnum
      have hcwc : c = "Worker Count" := by
        rcases List.mem_cons.mp hcm with h1 | h1
        · exact h1
        · exact absurd hcn (hnum c h1)
      subst hcwc
      have hallnum : ∀ c2 ∈ numeric_cols, (colIdx c2 df.header).isSome := by
        intro c2 hc2
        rcases hop : colIdx c2 df.header with _ | i
        · exact absurd hop (hnum c2 hc2)
        · simp
      obtain ⟨df1, hco⟩ := coerceCols_ok numeric_cols df hallnum
      have hhd := (coerceCols_ok_facts _ _ _ hco).1
      cases hrows : df1.rows with
      | nil =>
        obtain ⟨im, him⟩ := Option.isSome_iff_exists.mp (hallnum "Max Memory (MB)" (by decide))
        have hmc : df1.getCol "Max Memory (MB)" = .ok [] := by
          have hg := getCol_some df1 "Max Memory (MB)" im (by rw [hhd]; exact him)
          rw [hrows] at hg
          simpa using hg
        have hls : applyCreateLabel df1.header df1.rows = .ok [] := by
          rw [hrows]
          rfl
        exact ⟨.valueError "attempt to get argmin of an empty sequence",
          by simp [runDf, hco, hls, hmc, idxmin, argBest]⟩
      | cons r1 rs1 =>
        have hwcn : colIdx "Worker Count" df1.header = none := by
          rw [hhd]
          exact hcn
        have hcl : create_label df1.header r1 = .error (.keyError "Worker Count") := by
          simp [create_label, rowGet, hwcn]
        have hls : applyCreateLabel df1.header df1.rows = .error (.keyError "Worker Count") := by
          rw [hrows]
          exact applyCreateLabel_err_head _ _ _ _ hcl
        exact ⟨.keyError "Worker Count", by simp [runDf, hco, hls]⟩
  obtain ⟨e, he⟩ := hmain
  rw [hplot]
  refine ⟨⟨e, he⟩, ?_, ?_⟩
  · intro m hcontra
    rw [he] at hcontra
    exact Outcome.noConfusion hcontra
  · rw [he]
    rfl

/-- C9 witness: a table without the `Actual Workers` column. -/
theorem c9_witness :
    (∃ e, plot_benchmark_results "results" ⟨some dfNoCol, none⟩ = .pyError e) ∧
    (∀ m, plot_benchmark_results "results" ⟨some dfNoCol, none⟩ ≠ .missingSummary m) ∧
    filesWritten (plot_benchmark_results "results" ⟨some dfNoCol, none⟩) = [] :=
  c9_missing_column "results" ⟨some dfNoCol, none⟩ dfNoCol rfl
    ⟨"Actual Workers", by decide, by decide⟩

/-- C10: when a metric column is entirely missing after coercion, the
extremal-index computation has no valid index, the run ends in an
uncaught error, and no image is written. -/
theorem c10_all_missing (rd : String) (d : Dir) (df df1 : DataFrame) (c : String)
    (col : List Value)
    (hs : d.summary = some df)
    (hco : coerceCols df numeric_cols = .ok df1)
    (hc : c ∈ metric_cols)
    (hcol : df1.getCol c = .ok col)
    (hna : hasNumeric col = false) :
    (∃ e, plot_benchmark_results rd d = .pyError e) ∧
    filesWritten (plot_benchmark_results rd d) = [] := by
  have hplot : plot_benchmark_results rd d = runDf rd df d.sysInfo := by
    simp [plot_benchmark_results, hs]
  obtain ⟨e, he⟩ := runDf_err_of_allNa rd df df1 d.sysInfo c col hco hc hcol hna
  rw [hplot]
  refine ⟨⟨e, he⟩, ?_⟩
  rw [he]
  rfl

/-- C10 witness: a table whose total-time column is entirely
unparseable. -/
theorem c10_witness :
    (∃ e, plot_benchmark_results "results" ⟨some dfAllNa, none⟩ = .pyError e) ∧
    filesWritten (plot_benchmark_results "results" ⟨some dfAllNa, none⟩) = [] :=
  c10_all_missing "results" ⟨some dfAllNa, none⟩ dfAllNa dfAllNaC "Total Time (s)"
    [.na, .na] rfl (by decide) (by decide) (by decide) (by decide)
